import Mathlib

/-!
Verification of the tiered-rate conversion engine of the Woyofal
electricity-cost estimator.

The program's numeric values are JavaScript numbers. Exact arithmetic is
the spec's reference semantics, so a number is modelled as `NaN`, one of
the two signed infinities, or a finite value represented by a rational.
Arithmetic and comparisons follow JS semantics: `NaN` propagates through
arithmetic and makes every comparison false, and the infinities follow
the IEEE sign and absorption rules JS uses.
-/

namespace Woyofal

/-- A JavaScript number of this program: `nan`, `inf` (`+Infinity`),
`ninf` (`-Infinity`), or a finite value given as an exact rational. -/
inductive JSNum where
  | nan : JSNum
  | inf : JSNum
  | ninf : JSNum
  | fin (q : ℚ) : JSNum
deriving DecidableEq, Repr

/-- JS `Math.min`: `NaN` when either argument is `NaN`; otherwise the
smaller value, with `-Infinity` below and `+Infinity` above every
finite value. -/
def JSNum.min : JSNum → JSNum → JSNum
  | .nan, _ => .nan
  | _, .nan => .nan
  | .ninf, _ => .ninf
  | _, .ninf => .ninf
  | .inf, b => b
  | a, .inf => a
  | .fin a, .fin b => .fin (Min.min a b)

/-- JS `Math.max`: `NaN` when either argument is `NaN`; otherwise the
larger value. -/
def JSNum.max : JSNum → JSNum → JSNum
  | .nan, _ => .nan
  | _, .nan => .nan
  | .inf, _ => .inf
  | _, .inf => .inf
  | .ninf, b => b
  | a, .ninf => a
  | .fin a, .fin b => .fin (Max.max a b)

/-- JS addition: `NaN` propagates, opposite infinities give `NaN`, an
infinity absorbs any finite addend. -/
def JSNum.add : JSNum → JSNum → JSNum
  | .nan, _ => .nan
  | _, .nan => .nan
  | .inf, .ninf => .nan
  | .ninf, .inf => .nan
  | .inf, _ => .inf
  | _, .inf => .inf
  | .ninf, _ => .ninf
  | _, .ninf => .ninf
  | .fin a, .fin b => .fin (a + b)

/-- JS subtraction: `NaN` propagates, an infinity minus itself gives
`NaN`, otherwise infinities dominate with their sign. -/
def JSNum.sub : JSNum → JSNum → JSNum
  | .nan, _ => .nan
  | _, .nan => .nan
  | .inf, .inf => .nan
  | .ninf, .ninf => .nan
  | .inf, _ => .inf
  | .ninf, _ => .ninf
  | _, .inf => .ninf
  | _, .ninf => .inf
  | .fin a, .fin b => .fin (a - b)

/-- JS multiplication: `NaN` propagates, an infinity times zero gives
`NaN`, an infinity times a nonzero value gives the sign-ruled
infinity. -/
def JSNum.mul : JSNum → JSNum → JSNum
  | .nan, _ => .nan
  | _, .nan => .nan
  | .inf, .inf => .inf
  | .inf, .ninf => .ninf
  | .ninf, .inf => .ninf
  | .ninf, .ninf => .inf
  | .inf, .fin q => if 0 < q then .inf else if q < 0 then .ninf else .nan
  | .fin q, .inf => if 0 < q then .inf else if q < 0 then .ninf else .nan
  | .ninf, .fin q => if 0 < q then .ninf else if q < 0 then .inf else .nan
  | .fin q, .ninf => if 0 < q then .ninf else if q < 0 then .inf else .nan
  | .fin a, .fin b => .fin (a * b)

/-- JS division: `NaN` propagates, infinity over infinity gives `NaN`,
an infinite dividend over a finite divisor gives the sign-ruled infinity
(the zero divisor of the source is the literal `+0`), a finite dividend
over an infinite divisor gives zero, and a finite nonzero dividend over
zero gives the sign-ruled infinity while `0/0` gives `NaN`. -/
def JSNum.div : JSNum → JSNum → JSNum
  | .nan, _ => .nan
  | _, .nan => .nan
  | .inf, .inf => .nan
  | .inf, .ninf => .nan
  | .ninf, .inf => .nan
  | .ninf, .ninf => .nan
  | .inf, .fin q => if q < 0 then .ninf else .inf
  | .ninf, .fin q => if q < 0 then .inf else .ninf
  | .fin _, .inf => .fin 0
  | .fin _, .ninf => .fin 0
  | .fin a, .fin b =>
    if b = 0 then (if 0 < a then .inf else if a < 0 then .ninf else .nan)
    else .fin (a / b)

/-- JS `<=`: any comparison involving `NaN` is false; `-Infinity` is
below and `+Infinity` above everything that is not `NaN`. -/
def JSNum.le : JSNum → JSNum → Bool
  | .nan, _ => false
  | _, .nan => false
  | .ninf, _ => true
  | _, .inf => true
  | .inf, _ => false
  | _, .ninf => false
  | .fin a, .fin b => decide (a ≤ b)

instance : Add JSNum := ⟨JSNum.add⟩

instance : Sub JSNum := ⟨JSNum.sub⟩

instance : Mul JSNum := ⟨JSNum.mul⟩

instance : Div JSNum := ⟨JSNum.div⟩

@[simp] theorem JSNum.min_fin (a b : ℚ) :
    JSNum.min (JSNum.fin a) (JSNum.fin b) = JSNum.fin (Min.min a b) := rfl

@[simp] theorem JSNum.max_fin (a b : ℚ) :
    JSNum.max (JSNum.fin a) (JSNum.fin b) = JSNum.fin (Max.max a b) := rfl

@[simp] theorem JSNum.add_fin (a b : ℚ) :
    JSNum.fin a + JSNum.fin b = JSNum.fin (a + b) := rfl

@[simp] theorem JSNum.sub_fin (a b : ℚ) :
    JSNum.fin a - JSNum.fin b = JSNum.fin (a - b) := rfl

@[simp] theorem JSNum.mul_fin (a b : ℚ) :
    JSNum.fin a * JSNum.fin b = JSNum.fin (a * b) := rfl

@[simp] theorem JSNum.div_fin (a b : ℚ) (hb : b ≠ 0) :
    JSNum.fin a / JSNum.fin b = JSNum.fin (a / b) := by
  show JSNum.div (JSNum.fin a) (JSNum.fin b) = JSNum.fin (a / b)
  simp [JSNum.div, hb]

@[simp] theorem JSNum.le_fin (a b : ℚ) :
    JSNum.le (JSNum.fin a) (JSNum.fin b) = decide (a ≤ b) := rfl

/-- `GlobalSettings` from `types.ts`: the user-editable rate
configuration. -/
structure GlobalSettings where
  daysPerMonth : JSNum
  priceT1 : JSNum
  priceT2 : JSNum
  priceT3 : JSNum
deriving DecidableEq, Repr

/-- `TierConfig` from `types.ts`: the two static tier thresholds. -/
structure TierConfig where
  threshold1 : JSNum
  threshold2 : JSNum
deriving DecidableEq, Repr

/-- `MonthlyBreakdown` from `types.ts`: one tier slice of the monthly
breakdown. -/
structure MonthlyBreakdown where
  tier : String
  kWh : JSNum
  price : JSNum
  cost : JSNum
deriving DecidableEq, Repr

/-- `ApplianceRow` from `types.ts`: one usage-hours scenario of the
appliance table. -/
structure ApplianceRow where
  hours : ℚ
  kWh : JSNum
  costT1 : JSNum
  costT2 : JSNum
  costT3 : JSNum
deriving DecidableEq, Repr

/-- The value produced by the `monthlyData` memo in the app component. -/
structure MonthlyData where
  kWh : JSNum
  cost : JSNum
  breakdown : List MonthlyBreakdown
deriving DecidableEq, Repr

/-- `MonthlyInputMode` from `types.ts`. -/
inductive MonthlyInputMode where
  | KWH | WATTS | FCFA
deriving DecidableEq, Repr

/-- `DEFAULT_SETTINGS` from `constants.ts`. -/
def DEFAULT_SETTINGS : GlobalSettings :=
  ⟨JSNum.fin 30, JSNum.fin 82.00, JSNum.fin 136.49, JSNum.fin 159.36⟩

/-- `TIER_CONFIG` from `constants.ts`. -/
def TIER_CONFIG : TierConfig := ⟨JSNum.fin 150, JSNum.fin 250⟩

/-- `APPLIANCE_HOURS` from `constants.ts`. -/
def APPLIANCE_HOURS : List ℚ := [4, 8, 12, 24]

/-- `validateInput` from `utils.ts`. The `allowZero` parameter defaults
to `true` at every call site that omits it; it is passed explicitly
here. The source checks only `isNaN(val)` and the sign — there is no
finiteness check — so `+Infinity` passes (`isNaN(Infinity)` is false and
`Infinity >= 0` and `Infinity > 0` are true) while `-Infinity` fails the
sign test. -/
def validateInput (val : JSNum) (allowZero : Bool) : Bool :=
  match val with
  | .nan => false
  | .inf => true
  | .ninf => false
  | .fin q => if allowZero then decide (0 ≤ q) else decide (0 < q)

/-- `isSettingsValid` from the app component (lines 87-90). -/
def isSettingsValid (settings : GlobalSettings) : Bool :=
  validateInput settings.daysPerMonth false &&
  validateInput settings.priceT1 true &&
  validateInput settings.priceT2 true &&
  validateInput settings.priceT3 true

/-- `getBreakdownFromKWh` from the app component (lines 92-102). -/
def getBreakdownFromKWh (settings : GlobalSettings) (kWh : JSNum) :
    List MonthlyBreakdown :=
  let k1 := JSNum.min kWh TIER_CONFIG.threshold1
  let k2 := JSNum.min (JSNum.max (kWh - TIER_CONFIG.threshold1) (JSNum.fin 0))
    (TIER_CONFIG.threshold2 - TIER_CONFIG.threshold1)
  let k3 := JSNum.max (kWh - TIER_CONFIG.threshold2) (JSNum.fin 0)
  [⟨"Tier 1 (0-150)", k1, settings.priceT1, k1 * settings.priceT1⟩,
   ⟨"Tier 2 (151-250)", k2, settings.priceT2, k2 * settings.priceT2⟩,
   ⟨"Tier 3 (>250)", k3, settings.priceT3, k3 * settings.priceT3⟩]

/-- `getKWhFromFcfa` from the app component (lines 104-112). -/
def getKWhFromFcfa (settings : GlobalSettings) (amount : JSNum) : JSNum :=
  let maxCostT1 := TIER_CONFIG.threshold1 * settings.priceT1
  let maxKWhT2 := TIER_CONFIG.threshold2 - TIER_CONFIG.threshold1
  let maxCostT2 := maxKWhT2 * settings.priceT2
  if JSNum.le amount maxCostT1 then amount / settings.priceT1
  else if JSNum.le amount (maxCostT1 + maxCostT2) then
    TIER_CONFIG.threshold1 + (amount - maxCostT1) / settings.priceT2
  else
    TIER_CONFIG.threshold2 + (amount - maxCostT1 - maxCostT2) / settings.priceT3

/-- `applianceRows` from the app component (lines 114-126). -/
def applianceRows (settings : GlobalSettings) (applianceWatts : JSNum) :
    List ApplianceRow :=
  if !isSettingsValid settings || !validateInput applianceWatts true then []
  else
    APPLIANCE_HOURS.map fun hours =>
      let kWh := applianceWatts / JSNum.fin 1000 * JSNum.fin hours *
        settings.daysPerMonth
      ⟨hours, kWh, kWh * settings.priceT1, kWh * settings.priceT2,
        kWh * settings.priceT3⟩

/-- `monthlyData` from the app component (lines 128-145). -/
def monthlyData (settings : GlobalSettings) (monthlyInputMode : MonthlyInputMode)
    (totalKWhInput monthlyWatts monthlyHours purchaseAmountFcfa : JSNum) :
    MonthlyData :=
  let effectiveKWh :=
    match monthlyInputMode with
    | .KWH => totalKWhInput
    | .WATTS => monthlyWatts / JSNum.fin 1000 * monthlyHours *
        settings.daysPerMonth
    | .FCFA => getKWhFromFcfa settings purchaseAmountFcfa
  let breakdown := getBreakdownFromKWh settings effectiveKWh
  let effectiveCost :=
    match monthlyInputMode with
    | .FCFA => purchaseAmountFcfa
    | _ => breakdown.foldl (fun acc b => acc + b.cost) (JSNum.fin 0)
  ⟨effectiveKWh, effectiveCost, breakdown⟩

/-- The total cost of a monthly breakdown, as computed at line 142 of the
app component: `breakdown.reduce((acc, b) => acc + b.cost, 0)` applied to
`getBreakdownFromKWh`. -/
def totalCost (settings : GlobalSettings) (kWh : JSNum) : JSNum :=
  (getBreakdownFromKWh settings kWh).foldl (fun acc b => acc + b.cost)
    (JSNum.fin 0)

/-- The three tier slices of any energy value sum back to that value,
for every rational energy, positive or not. -/
theorem slice_sum (q : ℚ) :
    Min.min q 150 + Min.min (Max.max (q - 150) 0) 100 + Max.max (q - 250) 0
      = q := by
  rcases le_total q 150 with h1 | h1 <;> rcases le_total q 250 with h2 | h2 <;>
    simp [min_def, max_def] <;> split_ifs <;> linarith

/-- The slice energies of the breakdown at a finite energy value. -/
theorem breakdown_kWh_map (settings : GlobalSettings) (q : ℚ) :
    (getBreakdownFromKWh settings (JSNum.fin q)).map MonthlyBreakdown.kWh =
      [JSNum.fin (Min.min q 150),
       JSNum.fin (Min.min (Max.max (q - 150) 0) 100),
       JSNum.fin (Max.max (q - 250) 0)] := by
  simp [getBreakdownFromKWh, TIER_CONFIG]
  norm_num

/-- Evaluation of `totalCost` at a finite energy with finite prices. -/
theorem totalCost_eval (settings : GlobalSettings) (p1 p2 p3 q : ℚ)
    (h1 : settings.priceT1 = JSNum.fin p1)
    (h2 : settings.priceT2 = JSNum.fin p2)
    (h3 : settings.priceT3 = JSNum.fin p3) :
    totalCost settings (JSNum.fin q) =
      JSNum.fin (Min.min q 150 * p1 +
        Min.min (Max.max (q - 150) 0) 100 * p2 +
        Max.max (q - 250) 0 * p3) := by
  simp [totalCost, getBreakdownFromKWh, TIER_CONFIG, h1, h2, h3]
  norm_num

/-- C1: for every energy ≥ 0 and every rate configuration, the three
slice energies returned by `getBreakdownFromKWh` are each non-negative
and sum exactly to the input energy. -/
theorem C1_partition (settings : GlobalSettings) (q : ℚ) (hq : 0 ≤ q) :
    ∃ a b c : ℚ,
      (getBreakdownFromKWh settings (JSNum.fin q)).map MonthlyBreakdown.kWh =
        [JSNum.fin a, JSNum.fin b, JSNum.fin c] ∧
      0 ≤ a ∧ 0 ≤ b ∧ 0 ≤ c ∧ a + b + c = q := by
  refine ⟨_, _, _, breakdown_kWh_map settings q, ?_, ?_, ?_, slice_sum q⟩
  · exact le_min hq (by norm_num)
  · exact le_min (le_max_right _ _) (by norm_num)
  · exact le_max_right _ _

/-- Witness for C1 at energy 200 with the default rates. -/
theorem C1_partition_witness :
    ∃ a b c : ℚ,
      (getBreakdownFromKWh DEFAULT_SETTINGS (JSNum.fin 200)).map
          MonthlyBreakdown.kWh =
        [JSNum.fin a, JSNum.fin b, JSNum.fin c] ∧
      0 ≤ a ∧ 0 ≤ b ∧ 0 ≤ c ∧ a + b + c = 200 :=
  C1_partition DEFAULT_SETTINGS 200 (by norm_num)

/-- C3: energy exactly at a threshold falls entirely in the lower tier:
150 kWh is all tier 1; 250 kWh is 150 in tier 1 and 100 in tier 2; and
0 kWh yields all-zero slices. This holds for every rate configuration. -/
theorem C3_threshold_boundaries (settings : GlobalSettings) :
    (getBreakdownFromKWh settings (JSNum.fin 150)).map MonthlyBreakdown.kWh =
      [JSNum.fin 150, JSNum.fin 0, JSNum.fin 0] ∧
    (getBreakdownFromKWh settings (JSNum.fin 250)).map MonthlyBreakdown.kWh =
      [JSNum.fin 150, JSNum.fin 100, JSNum.fin 0] ∧
    (getBreakdownFromKWh settings (JSNum.fin 0)).map MonthlyBreakdown.kWh =
      [JSNum.fin 0, JSNum.fin 0, JSNum.fin 0] := by
  refine ⟨?_, ?_, ?_⟩ <;>
    · rw [breakdown_kWh_map]
      norm_num [min_def, max_def]

/-- C5: with the default rate configuration, 550 kWh splits as 150/100/300
with tier costs 12300, 13649 and 47808, totalling 73757. -/
theorem C5_default_scenario :
    getBreakdownFromKWh DEFAULT_SETTINGS (JSNum.fin 550) =
      [⟨"Tier 1 (0-150)", JSNum.fin 150, JSNum.fin 82.00, JSNum.fin 12300⟩,
       ⟨"Tier 2 (151-250)", JSNum.fin 100, JSNum.fin 136.49, JSNum.fin 13649⟩,
       ⟨"Tier 3 (>250)", JSNum.fin 300, JSNum.fin 159.36, JSNum.fin 47808⟩] ∧
    totalCost DEFAULT_SETTINGS (JSNum.fin 550) = JSNum.fin 73757 := by
  constructor <;>
    norm_num [getBreakdownFromKWh, totalCost, TIER_CONFIG, DEFAULT_SETTINGS,
      min_def, max_def]

/-- C10: `getBreakdownFromKWh` always returns exactly three entries, in
tier order and carrying the three configured prices; its slice energies
sum exactly to the input for every rational input; and for a negative
input the tier-1 slice is the input itself while tiers 2 and 3 are
zero. -/
theorem C10_unconditional_partition (settings : GlobalSettings) (k : JSNum)
    (q : ℚ) :
    (getBreakdownFromKWh settings k).length = 3 ∧
    (getBreakdownFromKWh settings k).map MonthlyBreakdown.tier =
      ["Tier 1 (0-150)", "Tier 2 (151-250)", "Tier 3 (>250)"] ∧
    (getBreakdownFromKWh settings k).map MonthlyBreakdown.price =
      [settings.priceT1, settings.priceT2, settings.priceT3] ∧
    (∃ a b c : ℚ,
      (getBreakdownFromKWh settings (JSNum.fin q)).map MonthlyBreakdown.kWh =
        [JSNum.fin a, JSNum.fin b, JSNum.fin c] ∧ a + b + c = q) ∧
    (q < 0 →
      (getBreakdownFromKWh settings (JSNum.fin q)).map MonthlyBreakdown.kWh =
        [JSNum.fin q, JSNum.fin 0, JSNum.fin 0]) := by
  refine ⟨rfl, rfl, rfl, ⟨_, _, _, breakdown_kWh_map settings q, slice_sum q⟩,
    fun hneg => ?_⟩
  rw [breakdown_kWh_map]
  rw [min_eq_left (by linarith : q ≤ (150 : ℚ)),
    max_eq_right (by linarith : q - 150 ≤ (0 : ℚ)),
    max_eq_right (by linarith : q - 250 ≤ (0 : ℚ))]
  norm_num

/-- C2: with positive finite tier prices, the total cost of the breakdown
of `getKWhFromFcfa amount` is exactly `amount` for every amount ≥ 0; and
with the default rates the reverse composition
`getKWhFromFcfa (totalCost E)` recovers `E` for
`E ∈ {0, 100, 150, 200, 250, 400}`. -/
theorem C2_roundtrip :
    (∀ (settings : GlobalSettings) (p1 p2 p3 amount : ℚ),
      settings.priceT1 = JSNum.fin p1 → settings.priceT2 = JSNum.fin p2 →
      settings.priceT3 = JSNum.fin p3 → 0 < p1 → 0 < p2 → 0 < p3 →
      0 ≤ amount →
      totalCost settings (getKWhFromFcfa settings (JSNum.fin amount)) =
        JSNum.fin amount) ∧
    (∀ E : ℚ, E ∈ ([0, 100, 150, 200, 250, 400] : List ℚ) →
      getKWhFromFcfa DEFAULT_SETTINGS
          (totalCost DEFAULT_SETTINGS (JSNum.fin E)) =
        JSNum.fin E) := by
  constructor
  · intro settings p1 p2 p3 amount h1 h2 h3 hp1 hp2 hp3 ha
    rw [getKWhFromFcfa]
    simp only [TIER_CONFIG, h1, h2, h3, JSNum.mul_fin, JSNum.sub_fin,
      JSNum.add_fin, JSNum.le_fin, decide_eq_true_eq]
    norm_num
    split_ifs with hA hB
    · rw [JSNum.div_fin _ _ hp1.ne']
      rw [totalCost_eval settings p1 p2 p3 _ h1 h2 h3]
      congr 1
      have hq0 : 0 ≤ amount / p1 := div_nonneg ha hp1.le
      have hq150 : amount / p1 ≤ 150 := (div_le_iff₀ hp1).2 (by linarith)
      rw [min_eq_left hq150,
        max_eq_right (by linarith : amount / p1 - 150 ≤ (0 : ℚ)),
        max_eq_right (by linarith : amount / p1 - 250 ≤ (0 : ℚ))]
      norm_num
      exact div_mul_cancel₀ amount hp1.ne'
    · rw [JSNum.div_fin _ _ hp2.ne']
      rw [JSNum.add_fin]
      rw [totalCost_eval settings p1 p2 p3 _ h1 h2 h3]
      congr 1
      have hr0 : 0 ≤ (amount - 150 * p1) / p2 :=
        div_nonneg (by linarith) hp2.le
      have hr100 : (amount - 150 * p1) / p2 ≤ 100 :=
        (div_le_iff₀ hp2).2 (by linarith)
      have hmul : (amount - 150 * p1) / p2 * p2 = amount - 150 * p1 :=
        div_mul_cancel₀ _ hp2.ne'
      rw [min_eq_right
        (by linarith : (150 : ℚ) ≤ 150 + (amount - 150 * p1) / p2)]
      rw [show (150 : ℚ) + (amount - 150 * p1) / p2 - 150 =
        (amount - 150 * p1) / p2 by ring]
      rw [max_eq_left hr0, min_eq_left hr100]
      rw [max_eq_right
        (by linarith : (150 : ℚ) + (amount - 150 * p1) / p2 - 250 ≤ 0)]
      linarith
    · rw [JSNum.div_fin _ _ hp3.ne']
      rw [JSNum.add_fin]
      rw [totalCost_eval settings p1 p2 p3 _ h1 h2 h3]
      congr 1
      have hr0 : 0 ≤ (amount - 150 * p1 - 100 * p2) / p3 :=
        div_nonneg (by linarith) hp3.le
      have hmul : (amount - 150 * p1 - 100 * p2) / p3 * p3 =
          amount - 150 * p1 - 100 * p2 :=
        div_mul_cancel₀ _ hp3.ne'
      rw [min_eq_right
        (by linarith :
          (150 : ℚ) ≤ 250 + (amount - 150 * p1 - 100 * p2) / p3)]
      rw [show (250 : ℚ) + (amount - 150 * p1 - 100 * p2) / p3 - 150 =
        100 + (amount - 150 * p1 - 100 * p2) / p3 by ring]
      rw [max_eq_left (by linarith), min_eq_right (by linarith)]
      rw [show (250 : ℚ) + (amount - 150 * p1 - 100 * p2) / p3 - 250 =
        (amount - 150 * p1 - 100 * p2) / p3 by ring]
      rw [max_eq_left hr0]
      linarith
  · intro E hE
    fin_cases hE <;>
      norm_num [getKWhFromFcfa, totalCost, getBreakdownFromKWh, TIER_CONFIG,
        DEFAULT_SETTINGS, min_def, max_def]

/-- Witness for C2: the purchase amount 20000 FCFA round-trips through the
inverse conversion, and 200 kWh round-trips the other way, at the default
rates. -/
theorem C2_roundtrip_witness :
    totalCost DEFAULT_SETTINGS
        (getKWhFromFcfa DEFAULT_SETTINGS (JSNum.fin 20000)) =
      JSNum.fin 20000 ∧
    getKWhFromFcfa DEFAULT_SETTINGS
        (totalCost DEFAULT_SETTINGS (JSNum.fin 200)) =
      JSNum.fin 200 :=
  ⟨C2_roundtrip.1 DEFAULT_SETTINGS 82.00 136.49 159.36 20000 rfl rfl rfl
      (by norm_num) (by norm_num) (by norm_num) (by norm_num),
   C2_roundtrip.2 200 (by norm_num)⟩

/-- C4: for fixed non-negative finite tier prices, the total cost of the
breakdown is monotonically non-decreasing in the energy. -/
theorem C4_cost_monotone (settings : GlobalSettings) (p1 p2 p3 e1 e2 : ℚ)
    (h1 : settings.priceT1 = JSNum.fin p1)
    (h2 : settings.priceT2 = JSNum.fin p2)
    (h3 : settings.priceT3 = JSNum.fin p3)
    (hp1 : 0 ≤ p1) (hp2 : 0 ≤ p2) (hp3 : 0 ≤ p3)
    (he1 : 0 ≤ e1) (he : e1 ≤ e2) :
    ∃ c1 c2 : ℚ, totalCost settings (JSNum.fin e1) = JSNum.fin c1 ∧
      totalCost settings (JSNum.fin e2) = JSNum.fin c2 ∧ c1 ≤ c2 := by
  refine ⟨_, _, totalCost_eval settings p1 p2 p3 e1 h1 h2 h3,
    totalCost_eval settings p1 p2 p3 e2 h1 h2 h3, ?_⟩
  have m1 : Min.min e1 150 ≤ Min.min e2 150 := min_le_min he le_rfl
  have m2 : Min.min (Max.max (e1 - 150) 0) 100 ≤
      Min.min (Max.max (e2 - 150) 0) 100 :=
    min_le_min (max_le_max (by linarith) le_rfl) le_rfl
  have m3 : Max.max (e1 - 250) 0 ≤ Max.max (e2 - 250) 0 :=
    max_le_max (by linarith) le_rfl
  have t1 := mul_le_mul_of_nonneg_right m1 hp1
  have t2 := mul_le_mul_of_nonneg_right m2 hp2
  have t3 := mul_le_mul_of_nonneg_right m3 hp3
  linarith

/-- Witness for C4 with the default rates at energies 100 and 300. -/
theorem C4_cost_monotone_witness :
    ∃ c1 c2 : ℚ, totalCost DEFAULT_SETTINGS (JSNum.fin 100) = JSNum.fin c1 ∧
      totalCost DEFAULT_SETTINGS (JSNum.fin 300) = JSNum.fin c2 ∧ c1 ≤ c2 :=
  C4_cost_monotone DEFAULT_SETTINGS 82.00 136.49 159.36 100 300 rfl rfl rfl
    (by norm_num) (by norm_num) (by norm_num) (by norm_num) (by norm_num)

/-- Witness for C10 at the negative energy -5 with the default rates. -/
theorem C10_unconditional_partition_witness :
    (getBreakdownFromKWh DEFAULT_SETTINGS (JSNum.fin (-5))).map
        MonthlyBreakdown.kWh =
      [JSNum.fin (-5), JSNum.fin 0, JSNum.fin 0] :=
  (C10_unconditional_partition DEFAULT_SETTINGS JSNum.nan (-5)).2.2.2.2
    (by norm_num)

/-- C6: in Power (Watts) input mode the resolved monthly energy is
`(power / 1000) × hours × daysPerMonth`; for 175 W, 8 hours/day and
30 days/month the energy is 42 kWh, lying entirely in tier 1 and costing
3444 at the default tier-1 price. -/
theorem C6_power_mode :
    (∀ (settings : GlobalSettings) (d w hr : ℚ) (t p : JSNum),
      settings.daysPerMonth = JSNum.fin d →
      (monthlyData settings MonthlyInputMode.WATTS t (JSNum.fin w)
          (JSNum.fin hr) p).kWh =
        JSNum.fin (w / 1000 * hr * d)) ∧
    ((monthlyData DEFAULT_SETTINGS MonthlyInputMode.WATTS (JSNum.fin 0)
        (JSNum.fin 175) (JSNum.fin 8) (JSNum.fin 0)).kWh = JSNum.fin 42 ∧
     (monthlyData DEFAULT_SETTINGS MonthlyInputMode.WATTS (JSNum.fin 0)
        (JSNum.fin 175) (JSNum.fin 8) (JSNum.fin 0)).breakdown.map
          MonthlyBreakdown.kWh =
       [JSNum.fin 42, JSNum.fin 0, JSNum.fin 0] ∧
     (monthlyData DEFAULT_SETTINGS MonthlyInputMode.WATTS (JSNum.fin 0)
        (JSNum.fin 175) (JSNum.fin 8) (JSNum.fin 0)).cost =
       JSNum.fin 3444) := by
  constructor
  · intro settings d w hr t p hd
    simp [monthlyData, hd]
  · refine ⟨?_, ?_, ?_⟩ <;>
      norm_num [monthlyData, getBreakdownFromKWh, TIER_CONFIG,
        DEFAULT_SETTINGS, min_def, max_def]

/-- Witness for C6 at the default settings with 175 W and 8 hours/day. -/
theorem C6_power_mode_witness :
    (monthlyData DEFAULT_SETTINGS MonthlyInputMode.WATTS (JSNum.fin 0)
        (JSNum.fin 175) (JSNum.fin 8) (JSNum.fin 0)).kWh =
      JSNum.fin (175 / 1000 * 8 * 30) :=
  C6_power_mode.1 DEFAULT_SETTINGS 30 175 8 (JSNum.fin 0) (JSNum.fin 0) rfl

/-- C7: in Cost (FCFA) input mode the displayed cost of `monthlyData` is
the original input amount itself, not recomputed from the breakdown; in
the kWh and Watts modes the displayed cost is the fold of the breakdown's
per-tier costs. -/
theorem C7_cost_mode_identity :
    (∀ (settings : GlobalSettings) (t w hr a : JSNum),
      (monthlyData settings MonthlyInputMode.FCFA t w hr a).cost = a) ∧
    (∀ (settings : GlobalSettings) (t w hr a : JSNum),
      (monthlyData settings MonthlyInputMode.KWH t w hr a).cost =
        (monthlyData settings MonthlyInputMode.KWH t w hr a).breakdown.foldl
          (fun acc b => acc + b.cost) (JSNum.fin 0)) ∧
    (∀ (settings : GlobalSettings) (t w hr a : JSNum),
      (monthlyData settings MonthlyInputMode.WATTS t w hr a).cost =
        (monthlyData settings MonthlyInputMode.WATTS t w hr a).breakdown.foldl
          (fun acc b => acc + b.cost) (JSNum.fin 0)) :=
  ⟨fun _ _ _ _ _ => rfl, fun _ _ _ _ _ => rfl, fun _ _ _ _ _ => rfl⟩

/-- Dividing `+Infinity` by a positive finite value leaves it
`+Infinity`. -/
theorem JSNum.inf_div_pos (q : ℚ) (hq : 0 < q) :
    JSNum.inf / JSNum.fin q = JSNum.inf := by
  show JSNum.div JSNum.inf (JSNum.fin q) = JSNum.inf
  simp [JSNum.div, not_lt.mpr hq.le]

/-- Multiplying `+Infinity` by a positive finite value leaves it
`+Infinity`. -/
theorem JSNum.inf_mul_pos (q : ℚ) (hq : 0 < q) :
    JSNum.inf * JSNum.fin q = JSNum.inf := by
  show JSNum.mul JSNum.inf (JSNum.fin q) = JSNum.inf
  simp [JSNum.mul, hq]

/-- C8 counterexample: `validateInput` checks only `isNaN` and the sign,
never finiteness, so a `+Infinity` wattage passes validation and the
appliance projector, instead of returning the empty list for this
non-finite input, returns four rows whose energies (and costs) are all
`+Infinity`. -/
theorem C8_infinite_wattage_cex :
    validateInput JSNum.inf true = true ∧
    applianceRows DEFAULT_SETTINGS JSNum.inf ≠ [] ∧
    (applianceRows DEFAULT_SETTINGS JSNum.inf).map ApplianceRow.kWh =
      [JSNum.inf, JSNum.inf, JSNum.inf, JSNum.inf] := by
  have hvalid : isSettingsValid
      ⟨JSNum.fin 30, JSNum.fin 82.00, JSNum.fin 136.49, JSNum.fin 159.36⟩ =
        true := by
    norm_num [isSettingsValid, validateInput]
  refine ⟨rfl, ?_, ?_⟩ <;>
    simp [applianceRows, hvalid, validateInput, APPLIANCE_HOURS,
      DEFAULT_SETTINGS, JSNum.inf_div_pos 1000 (by norm_num),
      JSNum.inf_mul_pos 4 (by norm_num), JSNum.inf_mul_pos 8 (by norm_num),
      JSNum.inf_mul_pos 12 (by norm_num), JSNum.inf_mul_pos 24 (by norm_num),
      JSNum.inf_mul_pos 30 (by norm_num),
      JSNum.inf_mul_pos 82.00 (by norm_num),
      JSNum.inf_mul_pos 136.49 (by norm_num),
      JSNum.inf_mul_pos 159.36 (by norm_num)]

/-- C8 (amended): the projector's validation checks NaN and sign only,
not finiteness. It returns the empty list whenever the wattage or any
rate-configuration field fails that check (NaN anywhere, days per month
≤ 0, a negative price, a negative wattage); a `+Infinity` wattage passes
validation and yields four rows of non-finite values instead of an empty
list; and on finite valid inputs it returns one row per scenario in
{4, 8, 12, 24} hours, holding
`kWh = (watts / 1000) × hours × daysPerMonth` and the three uniform
products of `kWh` with the tier prices. -/
theorem C8_appliance_rows :
    (∀ (settings : GlobalSettings) (w : JSNum),
      (isSettingsValid settings && validateInput w true) = false →
      applianceRows settings w = []) ∧
    (∀ (d p1 p2 p3 w : ℚ), 0 < d → 0 ≤ p1 → 0 ≤ p2 → 0 ≤ p3 → 0 ≤ w →
      applianceRows
          ⟨JSNum.fin d, JSNum.fin p1, JSNum.fin p2, JSNum.fin p3⟩
          (JSNum.fin w) =
        ([4, 8, 12, 24] : List ℚ).map fun hours =>
          ⟨hours, JSNum.fin (w / 1000 * hours * d),
           JSNum.fin (w / 1000 * hours * d * p1),
           JSNum.fin (w / 1000 * hours * d * p2),
           JSNum.fin (w / 1000 * hours * d * p3)⟩) ∧
    applianceRows DEFAULT_SETTINGS JSNum.inf =
      ([4, 8, 12, 24] : List ℚ).map fun hours =>
        ⟨hours, JSNum.inf, JSNum.inf, JSNum.inf, JSNum.inf⟩ := by
  refine ⟨?_, ?_, ?_⟩
  · intro settings w h
    cases hv : isSettingsValid settings with
    | false => simp [applianceRows, hv]
    | true =>
      cases hw : validateInput w true with
      | false => simp [applianceRows, hv, hw]
      | true => rw [hv, hw] at h; simp at h
  · intro d p1 p2 p3 w hd hp1 hp2 hp3 hw
    have hval : isSettingsValid
        ⟨JSNum.fin d, JSNum.fin p1, JSNum.fin p2, JSNum.fin p3⟩ = true := by
      simp [isSettingsValid, validateInput, hd, hp1, hp2, hp3]
    have hwv : validateInput (JSNum.fin w) true = true := by
      simp [validateInput, hw]
    simp [applianceRows, hval, hwv, APPLIANCE_HOURS]
  · have hvalid : isSettingsValid
        ⟨JSNum.fin 30, JSNum.fin 82.00, JSNum.fin 136.49, JSNum.fin 159.36⟩ =
          true := by
      norm_num [isSettingsValid, validateInput]
    simp [applianceRows, hvalid, validateInput, APPLIANCE_HOURS,
      DEFAULT_SETTINGS, JSNum.inf_div_pos 1000 (by norm_num),
      JSNum.inf_mul_pos 4 (by norm_num), JSNum.inf_mul_pos 8 (by norm_num),
      JSNum.inf_mul_pos 12 (by norm_num), JSNum.inf_mul_pos 24 (by norm_num),
      JSNum.inf_mul_pos 30 (by norm_num),
      JSNum.inf_mul_pos 82.00 (by norm_num),
      JSNum.inf_mul_pos 136.49 (by norm_num),
      JSNum.inf_mul_pos 159.36 (by norm_num)]

/-- Witness for C8: a NaN wattage yields no rows at the default settings,
and wattage 175 with the default rate values yields the four scenario
rows. -/
theorem C8_appliance_rows_witness :
    applianceRows DEFAULT_SETTINGS JSNum.nan = [] ∧
    applianceRows DEFAULT_SETTINGS (JSNum.fin 175) =
      ([4, 8, 12, 24] : List ℚ).map fun hours =>
        ⟨hours, JSNum.fin (175 / 1000 * hours * 30),
         JSNum.fin (175 / 1000 * hours * 30 * 82.00),
         JSNum.fin (175 / 1000 * hours * 30 * 136.49),
         JSNum.fin (175 / 1000 * hours * 30 * 159.36)⟩ :=
  ⟨C8_appliance_rows.1 DEFAULT_SETTINGS JSNum.nan
      (by norm_num [isSettingsValid, validateInput, DEFAULT_SETTINGS]),
   C8_appliance_rows.2.1 30 82.00 136.49 159.36 175 (by norm_num)
      (by norm_num) (by norm_num) (by norm_num) (by norm_num)⟩

/-- A rate configuration that fails validation: the tier-1 price is
negative. -/
def invalidSettings : GlobalSettings :=
  ⟨JSNum.fin 30, JSNum.fin (-1), JSNum.fin 136.49, JSNum.fin 159.36⟩

/-- C9 counterexample: a rate configuration with a negative tier-1 price
fails validation, yet the monthly tier breakdown computed from it is not
empty — it still has its three rows, computed with the invalid price. -/
theorem C9_monthly_not_gated_cex :
    isSettingsValid invalidSettings = false ∧
    (monthlyData invalidSettings MonthlyInputMode.KWH (JSNum.fin 100)
        (JSNum.fin 0) (JSNum.fin 0) (JSNum.fin 0)).breakdown ≠ [] ∧
    (monthlyData invalidSettings MonthlyInputMode.KWH (JSNum.fin 100)
        (JSNum.fin 0) (JSNum.fin 0) (JSNum.fin 0)).breakdown.length = 3 := by
  refine ⟨?_, ?_, rfl⟩
  · norm_num [isSettingsValid, invalidSettings, validateInput]
  · simp [monthlyData, getBreakdownFromKWh]

/-- C9 (amended): the validity predicate gates the appliance projection —
any rate configuration failing validation yields an empty appliance table
for every wattage — but the monthly tier breakdown is not gated: it
always has exactly three rows, whatever the rate configuration. -/
theorem C9_validity_gates_appliance_only :
    (∀ (settings : GlobalSettings) (w : JSNum),
      isSettingsValid settings = false → applianceRows settings w = []) ∧
    (∀ (settings : GlobalSettings) (m : MonthlyInputMode) (t wt hr a : JSNum),
      (monthlyData settings m t wt hr a).breakdown.length = 3) := by
  constructor
  · intro settings w h
    simp [applianceRows, h]
  · intro settings m t wt hr a
    cases m <;> rfl

/-- Witness for C9 (amended) at the invalid configuration with a negative
tier-1 price. -/
theorem C9_validity_gates_appliance_only_witness :
    applianceRows invalidSettings (JSNum.fin 175) = [] ∧
    (monthlyData invalidSettings MonthlyInputMode.KWH (JSNum.fin 100)
        (JSNum.fin 0) (JSNum.fin 0) (JSNum.fin 0)).breakdown.length = 3 :=
  ⟨C9_validity_gates_appliance_only.1 invalidSettings (JSNum.fin 175)
      (by norm_num [isSettingsValid, invalidSettings, validateInput]),
   C9_validity_gates_appliance_only.2 invalidSettings MonthlyInputMode.KWH
      (JSNum.fin 100) (JSNum.fin 0) (JSNum.fin 0) (JSNum.fin 0)⟩

end Woyofal
